import Mathlib

/-!
Verification development for the TiDB Cloud Zero MCP server (src/server.py).

The Python source is shallowly embedded: pure string manipulation is
translated to Lean functions on String and List, and the effectful
boundaries (process environment, the provisioning HTTP call, the state
file on disk, the SQL HTTP call, the system clock and the stdlib
ISO-8601 parser) are passed in as explicit parameters, so that each
embedded function is a total, executable Lean definition whose value on
any concrete input can be computed.
-/

namespace TiDBZero

/-! ### Python string primitives

Models of the Python `str` methods the server uses.  `upper` is modelled
on ASCII letters, which is all the server's keyword comparison ever
exercises; `strip` strips the six Python whitespace characters. -/

/-- Characters stripped by Python str.strip with no argument. -/
def pyIsSpace (c : Char) : Bool :=
  c = ' ' || c = '\t' || c = '\n' || c = '\r' || c = '\x0b' || c = '\x0c'

/-- Python str.strip: remove leading and trailing whitespace. -/
def pyStrip (s : String) : String :=
  String.mk (((s.data.dropWhile pyIsSpace).reverse.dropWhile pyIsSpace).reverse)

/-- ASCII uppercase of one character, as Python str.upper does on ASCII. -/
def pyUpperChar (c : Char) : Char :=
  if 'a' ≤ c && c ≤ 'z' then Char.ofNat (c.toNat - 32) else c

/-- Python str.upper restricted to ASCII input. -/
def pyUpper (s : String) : String :=
  String.mk (s.data.map pyUpperChar)

/-- Python str.ljust: pad on the right with spaces up to the given width. -/
def ljust (s : String) (w : Nat) : String :=
  s ++ String.mk (List.replicate (w - s.length) ' ')

/-- A run of dashes, as the Python expression repeating the dash character. -/
def dashes (w : Nat) : String :=
  String.mk (List.replicate w '-')

/-! ### Connection Descriptor (src/server.py, class TiDBConfig) -/

/-- The Connection Descriptor: fields of the Python dataclass TiDBConfig
(src/server.py lines 46-52). -/
structure TiDBConfig where
  host : String
  username : String
  password : String
  database : String
  expires_at : String
deriving DecidableEq, Repr

/-- TiDBConfig.is_configured (src/server.py lines 63-65):
Python truthiness of the three strings, so true exactly when host,
username and password are all non-empty. -/
def TiDBConfig.is_configured (c : TiDBConfig) : Bool :=
  c.host != "" && c.username != "" && c.password != ""

/-- TiDBConfig.is_expired (src/server.py lines 67-75).
The stdlib pieces are parameters: parse models
datetime.fromisoformat composed with the comparison against an aware
datetime (a string that parses to a naive datetime, whose comparison
with the aware now raises TypeError which the source catches and turns
into False, is modelled as parse returning none), and now models
datetime.now(timezone.utc) as an integer timestamp.  The source first
replaces every occurrence of Z with +00:00, returns False on an empty
expiry string, and otherwise returns now >= expiry, with any exception
caught and turned into False. -/
def TiDBConfig.is_expired (c : TiDBConfig) (parse : String → Option Int) (now : Int) : Bool :=
  if c.expires_at = "" then false
  else
    match parse (c.expires_at.replace "Z" "+00:00") with
    | some exp => decide (now ≥ exp)
    | none => false

/-! ### Claims C8 and C9 -/

/-- C8: for every Connection Descriptor, is_configured is true if and only
if the host, username, and password fields are all non-empty. -/
theorem is_configured_iff_nonempty (c : TiDBConfig) :
    c.is_configured = true ↔ c.host ≠ "" ∧ c.username ≠ "" ∧ c.password ≠ "" := by
  simp [TiDBConfig.is_configured, bne_iff_ne, and_assoc]

/-- C9: for every Connection Descriptor, is_expired is true if and only if
an expiry timestamp is set (non-empty), it is parseable (after the Z
normalisation the source performs, and to a value comparable with now),
and now is greater than or equal to the expiry; an absent or unparseable
expiry yields false. -/
theorem is_expired_iff (c : TiDBConfig) (parse : String → Option Int) (now : Int) :
    c.is_expired parse now = true ↔
      c.expires_at ≠ "" ∧
        ∃ exp, parse (c.expires_at.replace "Z" "+00:00") = some exp ∧ now ≥ exp := by
  unfold TiDBConfig.is_expired
  by_cases h : c.expires_at = ""
  · simp [h]
  · simp only [h, if_false]
    cases hp : parse (c.expires_at.replace "Z" "+00:00") with
    | none => simp [h, hp]
    | some exp => simp [h, hp, decide_eq_true_eq]

/-! ### Credential resolution (src/server.py, load_saved / get_config /
provision_zero_instance)

The effectful boundaries are explicit parameters:
- fileData : Option TiDBConfig models TiDBConfig.load_saved's reading and
  JSON-decoding of the state file (lines 119-129); a missing file, a JSON
  error or any other exception (all caught by the source and turned into
  None) is modelled as none, and a successfully decoded record as some of
  the corresponding descriptor (from_dict fills missing keys with the
  defaults, so the decoded value is always a full TiDBConfig);
- env_config : TiDBConfig models the return value of TiDBConfig.from_env
  (lines 97-116), the descriptor derived from the process environment
  (via the stdlib urlparse/unquote on the URL branch);
- resp : ProvResp models the HTTP response of the provisioning POST
  (lines 167-168); its optional fields model the JSON lookups
  data.instance.connection.{host,username,password} (a missing key raises
  KeyError, modelled as an error result) and instance.get of expiresAt
  with default empty string;
- writeErr : Option String models the outcome of TiDBConfig.save
  (lines 131-134): none when mkdir and write_text succeed, some e when
  either raises an OSError with message e.  The source does not guard the
  save call, so the exception propagates. -/

/-- Validity filter of TiDBConfig.load_saved (src/server.py lines 119-129):
a decoded record is returned only when it is configured and not expired. -/
def load_saved (fileData : Option TiDBConfig) (parse : String → Option Int)
    (now : Int) : Option TiDBConfig :=
  match fileData with
  | some c => if c.is_configured && !(c.is_expired parse now) then some c else none
  | none => none

/-- The provisioning HTTP response (src/server.py lines 167-182), with the
nested JSON fields the source extracts flattened into optional fields. -/
structure ProvResp where
  status : Nat
  text : String
  host : Option String
  username : Option String
  password : Option String
  expiresAt : Option String
deriving DecidableEq, Repr

/-- provision_zero_instance (src/server.py lines 165-187).  Returns the
resolution outcome together with a flag recording whether the state file
was written.  On a non-200 status the source raises before any further
work; on a missing JSON key it raises KeyError; otherwise it builds the
descriptor, calls save() unguarded (so a write failure propagates as the
error writeErr carries), and returns the descriptor. -/
def provision_zero_instance (resp : ProvResp) (writeErr : Option String) :
    Except String TiDBConfig × Bool :=
  if resp.status ≠ 200 then
    (Except.error
      ("Failed to create TiDB Cloud Zero instance: " ++ toString resp.status
        ++ " " ++ resp.text), false)
  else
    match resp.host, resp.username, resp.password with
    | some h, some u, some p =>
      let config : TiDBConfig :=
        { host := h, username := u, password := p, database := "test"
          expires_at := resp.expiresAt.getD "" }
      match writeErr with
      | some e => (Except.error e, false)
      | none => (Except.ok config, true)
    | _, _, _ => (Except.error "KeyError", false)

/-- Observable outcome of one get_config call: the result (or the raised
error), the new value of the module-level cache _config, and whether the
state file was consulted and whether the provisioning endpoint was
called. -/
structure ResolveTrace where
  result : Except String TiDBConfig
  cache : Option TiDBConfig
  fileRead : Bool
  provisionCalled : Bool
deriving Repr

/-- Steps 1-3 of get_config (src/server.py lines 148-162), entered when the
cached _config is absent or invalid; cache0 is the incoming cache value,
kept unchanged when provisioning raises (the assignment to _config never
happens then). -/
def resolveFresh (cache0 : Option TiDBConfig) (env_config : TiDBConfig)
    (fileData : Option TiDBConfig) (parse : String → Option Int) (now : Int)
    (resp : ProvResp) (writeErr : Option String) : ResolveTrace :=
  if env_config.is_configured then
    ⟨Except.ok env_config, some env_config, false, false⟩
  else
    match load_saved fileData parse now with
    | some saved => ⟨Except.ok saved, some saved, true, false⟩
    | none =>
      match provision_zero_instance resp writeErr with
      | (Except.ok cfg, _) => ⟨Except.ok cfg, some cfg, true, true⟩
      | (Except.error e, _) => ⟨Except.error e, cache0, true, true⟩

/-- get_config (src/server.py lines 141-162): return the cached _config
when it is present, configured and not expired; otherwise resolve afresh
from environment, saved file, then provisioning. -/
def get_config (cache0 : Option TiDBConfig) (env_config : TiDBConfig)
    (fileData : Option TiDBConfig) (parse : String → Option Int) (now : Int)
    (resp : ProvResp) (writeErr : Option String) : ResolveTrace :=
  match cache0 with
  | some c =>
    if c.is_configured && !(c.is_expired parse now) then
      ⟨Except.ok c, some c, false, false⟩
    else
      resolveFresh cache0 env_config fileData parse now resp writeErr
  | none => resolveFresh cache0 env_config fileData parse now resp writeErr

/-! ### Claim C3 -/

/-- C3: for every provisioning response whose HTTP status is not 200,
provisioning fails with an error message carrying the status code and the
response body, and the state file is not written. -/
theorem provision_non_success (resp : ProvResp) (writeErr : Option String)
    (h : resp.status ≠ 200) :
    provision_zero_instance resp writeErr =
      (Except.error
        ("Failed to create TiDB Cloud Zero instance: " ++ toString resp.status
          ++ " " ++ resp.text), false) := by
  simp [provision_zero_instance, h]

/-- Witness for C3 at a concrete 500 response with a body. -/
theorem provision_non_success_witness :
    provision_zero_instance ⟨500, "boom", none, none, none, none⟩ none =
      (Except.error "Failed to create TiDB Cloud Zero instance: 500 boom", false) :=
  provision_non_success ⟨500, "boom", none, none, none, none⟩ none (by decide)

/-! ### Claim C2

The claim states the persistence write is best-effort: a write failure
does not cause resolution to fail.  The source calls config.save() with
no exception handling (line 186), so a write failure escalates out of
provision_zero_instance and resolution fails. -/

/-- A successful provisioning response used as the concrete input. -/
def provOkResp : ProvResp :=
  ⟨200, "", some "h.example", some "user", some "pw", some "2099-01-01T00:00:00Z"⟩

/-- C2 counterexample: at a successful provisioning response, a failing
state-file write turns resolution into an error — the descriptor that the
claim says is still returned is returned only when the write succeeds. -/
theorem provision_write_failure_escalates_cex :
    (provision_zero_instance provOkResp (some "Errno 13")).1 = Except.error "Errno 13" ∧
      (¬ ∃ c, (provision_zero_instance provOkResp (some "Errno 13")).1 = Except.ok c) ∧
      (provision_zero_instance provOkResp none).1 =
        Except.ok ⟨"h.example", "user", "pw", "test", "2099-01-01T00:00:00Z"⟩ := by
  refine ⟨rfl, ?_, rfl⟩
  rintro ⟨c, hc⟩
  simp [provision_zero_instance, provOkResp] at hc

/-- C2 amended: the write is not best-effort — for every successful
provisioning response carrying complete connection fields, a write failure
escalates the write error past the resolver (and marks the file unwritten),
while with a successful write the descriptor is returned.  No other
resolution path writes the descriptor. -/
theorem provision_write_not_best_effort (resp : ProvResp) (writeErr : Option String)
    (h u p : String) (hs : resp.status = 200) (hh : resp.host = some h)
    (hu : resp.username = some u) (hp : resp.password = some p) :
    provision_zero_instance resp writeErr =
      match writeErr with
      | some e => (Except.error e, false)
      | none =>
        (Except.ok ⟨h, u, p, "test", resp.expiresAt.getD ""⟩, true) := by
  cases writeErr <;> simp [provision_zero_instance, hs, hh, hu, hp]

/-- Witness for C2's amended theorem at the concrete successful response. -/
theorem provision_write_not_best_effort_witness :
    provision_zero_instance provOkResp (some "Errno 13") =
      (Except.error "Errno 13", false) :=
  provision_write_not_best_effort provOkResp (some "Errno 13") "h.example" "user" "pw"
    rfl rfl rfl rfl

/-! ### Claim C7 -/

/-- C7: whenever the environment yields a configured descriptor, get_config
returns that descriptor, reads no file and never calls provisioning.  The
cache hypothesis is the reachability invariant of the module-level
_config under a fixed configured environment: initially none, and every
call returns with the cache set to the environment descriptor, so the
invariant is maintained across any sequence of calls. -/
theorem get_config_env_short_circuits (cache0 : Option TiDBConfig)
    (env_config : TiDBConfig) (fileData : Option TiDBConfig)
    (parse : String → Option Int) (now : Int) (resp : ProvResp)
    (writeErr : Option String) (henv : env_config.is_configured = true)
    (hcache : cache0 = none ∨ cache0 = some env_config) :
    get_config cache0 env_config fileData parse now resp writeErr =
      ⟨Except.ok env_config, some env_config, false, false⟩ := by
  rcases hcache with h | h <;> subst h
  · simp [get_config, resolveFresh, henv]
  · by_cases hv : env_config.is_configured && !(env_config.is_expired parse now)
    · simp [get_config, hv]
    · simp [get_config, hv, resolveFresh, henv]

/-- Witness for C7: a configured environment descriptor with an empty
cache resolves to the environment descriptor without touching the file or
the provisioning endpoint. -/
theorem get_config_env_short_circuits_witness :
    get_config none ⟨"h.example", "user", "pw", "test", ""⟩ none (fun _ => none) 0
        ⟨500, "", none, none, none, none⟩ none =
      ⟨Except.ok ⟨"h.example", "user", "pw", "test", ""⟩,
        some ⟨"h.example", "user", "pw", "test", ""⟩, false, false⟩ :=
  get_config_env_short_circuits none ⟨"h.example", "user", "pw", "test", ""⟩ none
    (fun _ => none) 0 ⟨500, "", none, none, none, none⟩ none (by decide) (Or.inl rfl)

/-! ### Query Result (src/server.py, class QueryResult) -/

/-- One column descriptor, an element of the JSON types array the source
stores in QueryResult.columns: a dict with keys name and type. -/
structure SqlColumn where
  name : String
  type : String
deriving DecidableEq, Repr

/-- QueryResult (src/server.py lines 192-197). -/
structure QueryResult where
  columns : List SqlColumn
  rows : List (List String)
  rows_affected : Option Nat
  last_insert_id : Option String
deriving DecidableEq, Repr

/-- Insertion into a Python dict modelled as an association list: an
existing key keeps its position and gets the new value, a new key is
appended. -/
def dictInsert (d : List (String × String)) (k v : String) :
    List (String × String) :=
  if d.any (fun p => p.1 == k) then
    d.map (fun p => if p.1 == k then (k, v) else p)
  else d ++ [(k, v)]

/-- Python dict.get with default empty string. -/
def dictGet (d : List (String × String)) (k : String) : String :=
  ((d.find? (fun p => p.1 == k)).map Prod.snd).getD ""

/-- The dict comprehension of QueryResult.to_dicts (src/server.py line 203)
for one row: keys are column names in first-occurrence order, a duplicated
name keeping the value of its last occurrence, exactly as a Python dict
comprehension behaves.  The source's row[i] raises IndexError when a row
is shorter than the column list; the model totalises it with the empty
string, and every theorem that touches row contents assumes the data-model
invariant that row lengths equal the column count. -/
def rowToDict (cols : List SqlColumn) (row : List String) :
    List (String × String) :=
  cols.enum.foldl (fun d ic => dictInsert d ic.2.name (row.getD ic.1 "")) []

/-- QueryResult.to_dicts (src/server.py lines 199-205): the empty list when
either the column list or the row list is empty, otherwise one dict per
row. -/
def QueryResult.to_dicts (r : QueryResult) : List (List (String × String)) :=
  if r.columns.isEmpty || r.rows.isEmpty then []
  else r.rows.map (rowToDict r.columns)

/-! ### Result formatting (src/server.py, format_results) -/

/-- The status-message branch of format_results (src/server.py lines
242-248), taken when to_dicts is empty: an OK line carrying the affected
row count, with the last-insert id appended when it is truthy (non-None
and non-empty) and not the string 0; or the no-results message when no
affected-row count is present. -/
def statusMessage (r : QueryResult) : String :=
  match r.rows_affected with
  | some n =>
    "OK. Rows affected: " ++ toString n ++
      (match r.last_insert_id with
       | some id => if id != "" && id != "0" then ". Last insert ID: " ++ id else ""
       | none => "")
  | none => "No results."

/-- The rendered table's column names (src/server.py line 253): the keys of
the first dict. -/
def tableColumns (rws : List (List (String × String))) : List String :=
  (rws.headD []).map Prod.fst

/-- The width of one rendered column (src/server.py lines 254-257): the
running maximum of the cell widths over all (already truncated) rows,
starting from the header name's width. -/
def colWidth (rws : List (List (String × String))) (col : String) : Nat :=
  rws.foldl (fun w row => max w (dictGet row col).length) col.length

/-- The header line (src/server.py line 259). -/
def headerLine (rws : List (List (String × String))) : String :=
  String.intercalate " | " ((tableColumns rws).map (fun col => ljust col (colWidth rws col)))

/-- The separator line (src/server.py line 260). -/
def sepLine (rws : List (List (String × String))) : String :=
  String.intercalate "-+-" ((tableColumns rws).map (fun col => dashes (colWidth rws col)))

/-- One data line (src/server.py line 263). -/
def dataLine (rws : List (List (String × String))) (row : List (String × String)) :
    String :=
  String.intercalate " | "
    ((tableColumns rws).map (fun col => ljust (dictGet row col) (colWidth rws col)))

/-- The joined table text (src/server.py lines 261-266): header, separator,
one line per row. -/
def tableText (rws : List (List (String × String))) : String :=
  String.intercalate "\n" (headerLine rws :: sepLine rws :: rws.map (dataLine rws))

/-- format_results (src/server.py lines 240-269).  The max_rows parameter
is explicit; the source defaults it to 100. -/
def format_results (result : QueryResult) (max_rows : Nat) : String :=
  let rows := result.to_dicts
  if rows.isEmpty then statusMessage result
  else
    let truncated := decide (rows.length > max_rows)
    let rows := rows.take max_rows
    if truncated then
      tableText rows ++ "\n... (showing " ++ toString max_rows ++ " of more rows)"
    else tableText rows

/-! ### Claim C5

The source appends the last-insert id only when it is truthy, i.e.
non-None AND non-empty, and different from the string 0; the claim's
condition (present and non-zero) also demands the append for an id that
is present but empty, where the source does not append. -/

/-- C5 counterexample: with zero rows, an affected count of 3 and a
last-insert id that is present (some) and not the string 0 — the empty
string — the source renders without the append, not the appended form the
claim requires. -/
theorem format_empty_id_cex :
    (⟨[], [], some 3, some ""⟩ : QueryResult).rows = [] ∧
      (⟨[], [], some 3, some ""⟩ : QueryResult).last_insert_id = some "" ∧
      "" ≠ "0" ∧
      format_results ⟨[], [], some 3, some ""⟩ 100 = "OK. Rows affected: 3" ∧
      "OK. Rows affected: 3" ≠ "OK. Rows affected: 3. Last insert ID: " :=
  ⟨rfl, rfl, by decide, rfl, by decide⟩

/-- C5 amended: for every Query Result with no rows, if it has a defined
affected-row count n the rendering is exactly the OK line with n,
with the last-insert append exactly when an id is present, non-empty and
not the string 0; with no affected-row count the rendering is exactly the
no-results message. -/
theorem format_results_no_rows (r : QueryResult) (mr : Nat) (hr : r.rows = []) :
    (r.rows_affected = none → format_results r mr = "No results.") ∧
      ∀ n, r.rows_affected = some n →
        (∀ id, r.last_insert_id = some id → id ≠ "" → id ≠ "0" →
            format_results r mr =
              "OK. Rows affected: " ++ toString n ++ ". Last insert ID: " ++ id) ∧
          ((r.last_insert_id = none ∨ r.last_insert_id = some "" ∨
              r.last_insert_id = some "0") →
            format_results r mr = "OK. Rows affected: " ++ toString n) := by
  have hfmt : format_results r mr = statusMessage r := by
    simp [format_results, QueryResult.to_dicts, hr]
  constructor
  · intro hn
    simp [hfmt, statusMessage, hn]
  · intro n hn
    constructor
    · intro id hid hne hnz
      simp [hfmt, statusMessage, hn, hid, hne, hnz]
      simp [String.append_assoc]
    · rintro (hid | hid | hid) <;> simp [hfmt, statusMessage, hn, hid]

/-- Witness for C5's amended theorem: the spec's own instance — zero rows,
three affected, last-insert id 7. -/
theorem format_results_no_rows_witness :
    format_results ⟨[], [], some 3, some "7"⟩ 100 =
      "OK. Rows affected: " ++ toString 3 ++ ". Last insert ID: " ++ "7" :=
  ((format_results_no_rows ⟨[], [], some 3, some "7"⟩ 100 rfl).2 3 rfl).1 "7" rfl
    (by decide) (by decide)

/-! ### Claim C10 -/

/-- C10: for every Query Result whose column list is empty, to_dicts is the
empty list even when rows are present, and format_results therefore takes
the status-message branch rather than rendering a table. -/
theorem to_dicts_empty_columns (r : QueryResult) (mr : Nat) (hc : r.columns = []) :
    r.to_dicts = [] ∧ format_results r mr = statusMessage r := by
  have h : r.to_dicts = [] := by simp [QueryResult.to_dicts, hc]
  exact ⟨h, by simp [format_results, h]⟩

/-- Witness for C10 at a result with one row and no columns. -/
theorem to_dicts_empty_columns_witness :
    (⟨[], [["a", "b"]], some 2, none⟩ : QueryResult).to_dicts = [] ∧
      format_results ⟨[], [["a", "b"]], some 2, none⟩ 100 =
        statusMessage ⟨[], [["a", "b"]], some 2, none⟩ :=
  to_dicts_empty_columns ⟨[], [["a", "b"]], some 2, none⟩ 100 rfl

/-! ### Width lemmas for the table renderer -/

/-- Padding never shortens: the length of ljust is the maximum of the
string's length and the requested width. -/
theorem ljust_length (s : String) (w : Nat) :
    (ljust s w).length = max s.length w := by
  simp [ljust, String.length_append]
  rcases Nat.le_total s.length w with h | h
  · rw [max_eq_right h]; omega
  · rw [max_eq_left h]; omega

/-- A dash run has exactly the requested width. -/
theorem dashes_length (w : Nat) : (dashes w).length = w := by
  simp [dashes]

/-- The seed of a running maximum is a lower bound of the result. -/
theorem le_foldl_max (l : List Nat) (a : Nat) : a ≤ l.foldl max a := by
  induction l generalizing a with
  | nil => exact Nat.le_refl a
  | cons b t ih => exact Nat.le_trans (Nat.le_max_left a b) (ih (max a b))

/-- Every list element is a lower bound of the running maximum. -/
theorem foldl_max_of_mem {x : Nat} (l : List Nat) (a : Nat) (h : x ∈ l) :
    x ≤ l.foldl max a := by
  induction l generalizing a with
  | nil => cases h
  | cons b t ih =>
    cases h with
    | head => exact Nat.le_trans (Nat.le_max_right a x) (le_foldl_max t (max a x))
    | tail _ h => exact ih (max a b) h

/-- The running maximum is attained: it is the seed or one of the
elements. -/
theorem foldl_max_attained (l : List Nat) (a : Nat) :
    l.foldl max a = a ∨ l.foldl max a ∈ l := by
  induction l generalizing a with
  | nil => exact Or.inl rfl
  | cons b t ih =>
    have hab : max a b = a ∨ max a b = b := by
      rcases Nat.le_total a b with h | h
      · exact Or.inr (max_eq_right h)
      · exact Or.inl (max_eq_left h)
    rcases ih (max a b) with h | h
    · rcases hab with hm | hm
      · exact Or.inl (by rw [List.foldl_cons, h, hm])
      · exact Or.inr (by rw [List.foldl_cons, h, hm]; exact List.mem_cons_self b t)
    · exact Or.inr (List.mem_cons_of_mem b h)

/-- The column width as a running maximum over the mapped cell widths. -/
theorem colWidth_eq_foldl_map (rws : List (List (String × String))) (col : String) :
    colWidth rws col =
      (rws.map (fun row => (dictGet row col).length)).foldl max col.length := by
  simp [colWidth, List.foldl_map]

/-- The header name never exceeds its column's width. -/
theorem header_le_colWidth (rws : List (List (String × String))) (col : String) :
    col.length ≤ colWidth rws col := by
  rw [colWidth_eq_foldl_map]; exact le_foldl_max _ _

/-- No cell of a row in the table exceeds its column's width. -/
theorem cell_le_colWidth (rws : List (List (String × String))) (col : String)
    {row : List (String × String)} (h : row ∈ rws) :
    (dictGet row col).length ≤ colWidth rws col := by
  rw [colWidth_eq_foldl_map]
  exact foldl_max_of_mem _ _ (List.mem_map_of_mem _ h)

/-- The column width is the maximum observed width: it is the header's
width or the width of some cell of the column. -/
theorem colWidth_attained (rws : List (List (String × String))) (col : String) :
    colWidth rws col = col.length ∨
      ∃ row ∈ rws, colWidth rws col = (dictGet row col).length := by
  rw [colWidth_eq_foldl_map]
  rcases foldl_max_attained (rws.map (fun row => (dictGet row col).length))
      col.length with h | h
  · exact Or.inl h
  · rw [List.mem_map] at h
    obtain ⟨row, hrow, heq⟩ := h
    exact Or.inr ⟨row, hrow, heq.symm⟩

/-- With nonempty rows and columns, to_dicts is the per-row map and is
nonempty. -/
theorem to_dicts_of_nonempty (r : QueryResult) (hr : r.rows ≠ []) (hc : r.columns ≠ []) :
    r.to_dicts = r.rows.map (rowToDict r.columns) ∧ r.to_dicts ≠ [] := by
  have h1 : (r.columns.isEmpty || r.rows.isEmpty) = false := by
    cases hcs : r.columns with
    | nil => exact absurd hcs hc
    | cons a t =>
      cases hrs : r.rows with
      | nil => exact absurd hrs hr
      | cons b s => simp
  have h2 : r.to_dicts = r.rows.map (rowToDict r.columns) := by
    simp [QueryResult.to_dicts, h1]
  refine ⟨h2, ?_⟩
  rw [h2]
  simp [hr]

/-! ### Claim C6

The claim quantifies over every Query Result with at least one row.  With
at least one row but an empty column-descriptor list, to_dicts is empty
and format_results renders a status message, not a table, so the claim
needs the extra hypothesis that the column list is nonempty (and, for the
model to coincide with the source, the data-model row-length invariant
and a positive display cap; the source's rows[0] raises on a cap of
zero). -/

/-- C6 counterexample: a Query Result with one row but no column
descriptors does not render as a table — it renders the status message. -/
theorem format_table_no_columns_cex :
    (⟨[], [["x"]], none, none⟩ : QueryResult).rows ≠ [] ∧
      format_results ⟨[], [["x"]], none, none⟩ 100 = "No results." :=
  ⟨by decide, rfl⟩

/-- C6 amended: for every Query Result with at least one row and at least
one column descriptor (rows obeying the row-length invariant, positive
display cap), format_results renders the table whose lines are the
header, the dash separator and one line per displayed row, and for each
rendered column the header cell, the separator segment and every data
cell have the same total width, that width being the maximum observed
width of the column including its header name. -/
theorem format_results_table_aligned (r : QueryResult) (mr : Nat)
    (hr : r.rows ≠ []) (hc : r.columns ≠ []) (hmr : 0 < mr)
    (hlen : ∀ row ∈ r.rows, row.length = r.columns.length) :
    format_results r mr =
        (if mr < r.to_dicts.length then
          tableText (r.to_dicts.take mr) ++ "\n... (showing " ++ toString mr
            ++ " of more rows)"
        else tableText (r.to_dicts.take mr)) ∧
      ∀ col ∈ tableColumns (r.to_dicts.take mr),
        (ljust col (colWidth (r.to_dicts.take mr) col)).length =
            colWidth (r.to_dicts.take mr) col ∧
          (dashes (colWidth (r.to_dicts.take mr) col)).length =
            colWidth (r.to_dicts.take mr) col ∧
          (∀ row ∈ r.to_dicts.take mr,
            (ljust (dictGet row col) (colWidth (r.to_dicts.take mr) col)).length =
              colWidth (r.to_dicts.take mr) col) ∧
          col.length ≤ colWidth (r.to_dicts.take mr) col ∧
          (∀ row ∈ r.to_dicts.take mr,
            (dictGet row col).length ≤ colWidth (r.to_dicts.take mr) col) ∧
          (colWidth (r.to_dicts.take mr) col = col.length ∨
            ∃ row ∈ r.to_dicts.take mr,
              colWidth (r.to_dicts.take mr) col = (dictGet row col).length) := by
  obtain ⟨hmap, hne⟩ := to_dicts_of_nonempty r hr hc
  constructor
  · have hie : r.to_dicts.isEmpty = false := by
      cases h : r.to_dicts with
      | nil => exact absurd h hne
      | cons a t => rfl
    simp [format_results, hie]
  · intro col hcol
    refine ⟨?_, dashes_length _, ?_, header_le_colWidth _ _, ?_, colWidth_attained _ _⟩
    · rw [ljust_length]; exact max_eq_right (header_le_colWidth _ _)
    · intro row hrow
      rw [ljust_length]; exact max_eq_right (cell_le_colWidth _ _ hrow)
    · intro row hrow
      exact cell_le_colWidth _ _ hrow

/-- A concrete two-column, two-row result for the C6 witness. -/
def c6res : QueryResult :=
  ⟨[⟨"id", "INT"⟩, ⟨"name", "VARCHAR"⟩], [["1", "Alice"], ["22", "B"]], none, none⟩

/-- Witness for C6's amended theorem at the concrete two-column result. -/
theorem format_results_table_aligned_witness :
    format_results c6res 100 =
        (if 100 < c6res.to_dicts.length then
          tableText (c6res.to_dicts.take 100) ++ "\n... (showing " ++ toString 100
            ++ " of more rows)"
        else tableText (c6res.to_dicts.take 100)) ∧
      ∀ col ∈ tableColumns (c6res.to_dicts.take 100),
        (ljust col (colWidth (c6res.to_dicts.take 100) col)).length =
            colWidth (c6res.to_dicts.take 100) col ∧
          (dashes (colWidth (c6res.to_dicts.take 100) col)).length =
            colWidth (c6res.to_dicts.take 100) col ∧
          (∀ row ∈ c6res.to_dicts.take 100,
            (ljust (dictGet row col) (colWidth (c6res.to_dicts.take 100) col)).length =
              colWidth (c6res.to_dicts.take 100) col) ∧
          col.length ≤ colWidth (c6res.to_dicts.take 100) col ∧
          (∀ row ∈ c6res.to_dicts.take 100,
            (dictGet row col).length ≤ colWidth (c6res.to_dicts.take 100) col) ∧
          (colWidth (c6res.to_dicts.take 100) col = col.length ∨
            ∃ row ∈ c6res.to_dicts.take 100,
              colWidth (c6res.to_dicts.take 100) col = (dictGet row col).length) :=
  format_results_table_aligned c6res 100 (by decide) (by decide) (by decide)
    (by decide)

/-! ### The query tool (src/server.py, query) -/

/-- The allow-list of the query tool (src/server.py line 295). -/
def allowed_prefixes : List String :=
  ["SELECT", "SHOW", "DESCRIBE", "DESC", "EXPLAIN"]

/-- Python str.startswith: the candidate's characters are a prefix of the
string's characters. -/
def pyStartswith (s p : String) : Bool :=
  p.data.isPrefixOf s.data

/-- The query tool (src/server.py lines 283-302).  The transport layer
execute_sql is the parameter ex (its success value a QueryResult, its
failure the raised exception's message); the returned pair is the tool's
text together with whether the transport layer was invoked.  The source
strips and uppercases the statement, forwards when some allowed prefix is
a string prefix of it, formats the result (default display cap 100) or
stringifies the caught exception, and otherwise returns the rejection
message without calling the transport. -/
def query (ex : String → Except String QueryResult) (sql : String) :
    String × Bool :=
  let sql_upper := pyUpper (pyStrip sql)
  if allowed_prefixes.any (fun p => pyStartswith sql_upper p) then
    match ex sql with
    | Except.ok r => (format_results r 100, true)
    | Except.error e => ("Error: " ++ e, true)
  else
    ("Error: query() only supports SELECT, SHOW, DESCRIBE, and EXPLAIN. Use execute() for write operations.",
      false)

/-- Formalisation of the claim's notion of the case-insensitive leading
keyword: the first maximal run of non-whitespace characters of the
stripped statement, uppercased.  This definition follows the claim's
words, for comparison against the source's prefix test. -/
def leadingKeyword (sql : String) : String :=
  String.mk ((pyUpper (pyStrip sql)).data.takeWhile (fun c => !(pyIsSpace c)))

/-! ### Claim C1

The source tests whether an allowed keyword is a string prefix of the
statement, not whether it equals the statement's leading keyword, so a
statement whose first token merely extends an allowed keyword is
forwarded although its leading keyword is not in the allow-list. -/

/-- C1 counterexample: the statement SELECTION * FROM t has leading
keyword SELECTION, which is not in the allow-list, yet the source
forwards it to the transport layer. -/
theorem query_leading_keyword_cex :
    (query (fun _ => Except.error "e") "SELECTION * FROM t").2 = true ∧
      leadingKeyword "SELECTION * FROM t" = "SELECTION" ∧
      "SELECTION" ∉ allowed_prefixes := by
  refine ⟨rfl, rfl, ?_⟩
  decide

/-- C1 amended: query forwards a statement to the transport layer if and
only if the stripped, uppercased statement has one of SELECT, SHOW,
DESCRIBE, DESC, EXPLAIN as a string prefix; when it does not, query
returns the rejection message and the transport layer is not called. -/
theorem query_prefix_allowlist (ex : String → Except String QueryResult)
    (sql : String) :
    ((query ex sql).2 = true ↔
        ∃ p ∈ allowed_prefixes, pyStartswith (pyUpper (pyStrip sql)) p = true) ∧
      ((¬ ∃ p ∈ allowed_prefixes, pyStartswith (pyUpper (pyStrip sql)) p = true) →
        query ex sql =
          ("Error: query() only supports SELECT, SHOW, DESCRIBE, and EXPLAIN. Use execute() for write operations.",
            false)) := by
  by_cases h : allowed_prefixes.any (fun p => pyStartswith (pyUpper (pyStrip sql)) p)
  · have hex : ∃ p ∈ allowed_prefixes, pyStartswith (pyUpper (pyStrip sql)) p = true := by
      simpa [List.any_eq_true] using h
    refine ⟨⟨fun _ => hex, fun _ => ?_⟩, fun hn => absurd hex hn⟩
    simp only [query, h, if_true]
    cases ex sql <;> rfl
  · have hnex : ¬ ∃ p ∈ allowed_prefixes, pyStartswith (pyUpper (pyStrip sql)) p = true := by
      simpa [List.any_eq_true] using h
    refine ⟨⟨fun ht => ?_, fun hp => absurd hp hnex⟩, fun _ => ?_⟩
    · exact absurd ht (by simp [query, h])
    · simp [query, h]

/-- Witness for C1's amended theorem: the spec's UPDATE example is
rejected with the validation message and the transport layer is never
invoked. -/
theorem query_prefix_allowlist_witness :
    query (fun _ => Except.error "e") "UPDATE t SET x=1" =
      ("Error: query() only supports SELECT, SHOW, DESCRIBE, and EXPLAIN. Use execute() for write operations.",
        false) :=
  (query_prefix_allowlist (fun _ => Except.error "e") "UPDATE t SET x=1").2
    (by decide)

/-! ### Batch execution (src/server.py, batch_execute) -/

/-- One outcome line of batch_execute (src/server.py lines 341-348) for
the statement at zero-based position i: the OK line carrying the
affected-row count when one is present, or the error line. -/
def batchLine (i : Nat) (out : Except String QueryResult) : String :=
  match out with
  | Except.ok r =>
    "[" ++ toString (i + 1) ++ "] OK" ++
      (match r.rows_affected with
       | some n => " (" ++ toString n ++ " rows)"
       | none => "")
  | Except.error e => "[" ++ toString (i + 1) ++ "] Error: " ++ e

/-- The enumerate loop of batch_execute: ex models execute_sql's outcome
for the statement at each position (the outcome may depend on the
position, since earlier statements can change database state), and the
per-statement try/except turns each outcome into one line. -/
def batch_outcomes (ex : Nat → String → Except String QueryResult) :
    List String → Nat → List String
  | [], _ => []
  | sql :: rest, i => batchLine i (ex i sql) :: batch_outcomes ex rest (i + 1)

/-- batch_execute (src/server.py lines 326-349): the outcome lines joined
by newlines. -/
def batch_execute (ex : Nat → String → Except String QueryResult)
    (statements : List String) : String :=
  String.intercalate "\n" (batch_outcomes ex statements 0)

/-- The loop invariant: starting at counter k, there is one line per
statement, and the line for the statement at offset j is exactly the
outcome line of that statement's own execution. -/
theorem batch_outcomes_spec (ex : Nat → String → Except String QueryResult)
    (stmts : List String) (k : Nat) :
    (batch_outcomes ex stmts k).length = stmts.length ∧
      ∀ j, j < stmts.length →
        (batch_outcomes ex stmts k).getD j "" =
          batchLine (k + j) (ex (k + j) (stmts.getD j "")) := by
  induction stmts generalizing k with
  | nil =>
    exact ⟨rfl, fun j hj => absurd hj (Nat.not_lt_zero j)⟩
  | cons s t ih =>
    refine ⟨by simp [batch_outcomes, (ih (k + 1)).1], ?_⟩
    intro j hj
    cases j with
    | zero => simp [batch_outcomes]
    | succ j' =>
      have h2 := (ih (k + 1)).2 j' (Nat.lt_of_succ_lt_succ hj)
      have hk : k + (j' + 1) = (k + 1) + j' := by omega
      simp only [batch_outcomes, List.getD_cons_succ, hk]
      exact h2

/-! ### Claim C4 -/

/-- C4: batch_execute returns one outcome line per statement in order —
the line at position j being the success line (with the affected-row
count when present) or error line of statement j's own execution — so a
failure of any statement leaves every later statement's execution and
outcome line unchanged. -/
theorem batch_execute_per_statement (ex : Nat → String → Except String QueryResult)
    (stmts : List String) :
    batch_execute ex stmts = String.intercalate "\n" (batch_outcomes ex stmts 0) ∧
      (batch_outcomes ex stmts 0).length = stmts.length ∧
      ∀ j, j < stmts.length →
        (batch_outcomes ex stmts 0).getD j "" =
          batchLine j (ex j (stmts.getD j "")) := by
  refine ⟨rfl, (batch_outcomes_spec ex stmts 0).1, fun j hj => ?_⟩
  simpa using (batch_outcomes_spec ex stmts 0).2 j hj

/-- The spec example's transport outcomes: the first two statements
succeed, the third fails. -/
def ex3 : Nat → String → Except String QueryResult := fun i _ =>
  if i = 0 then Except.ok ⟨[], [], some 0, none⟩
  else if i = 1 then Except.ok ⟨[], [], some 1, none⟩
  else Except.error "TiDB API error (400): table bad_table not found"

/-- The spec example's statement list. -/
def stmts3 : List String :=
  ["CREATE TABLE t(id INT)", "INSERT INTO t VALUES(1)", "SELECT * FROM bad_table"]

/-- Witness for C4 at the spec's three-statement example: three ordered
lines, the third an error line, independent of the first two. -/
theorem batch_execute_per_statement_witness :
    (batch_outcomes ex3 stmts3 0).length = stmts3.length ∧
      (batch_outcomes ex3 stmts3 0).getD 2 "" =
        batchLine 2 (ex3 2 (stmts3.getD 2 "")) :=
  ⟨(batch_execute_per_statement ex3 stmts3).2.1,
    (batch_execute_per_statement ex3 stmts3).2.2 2 (by decide)⟩

end TiDBZero
